import Mathlib

/-!
Verification development for the "Account" user-management microservice,
focused on its Reliable Event Publication subsystem: the publish-or-persist
logic inside the mutation services (HealthProfessionalService.update,
EducatorService.update), the integration-event fallback store, the
background retry task, and two domain-model invariants (IntegrationEvent
immutability, Family children de-duplication).

The TypeScript services are embedded shallowly: each collaborator
(validator, repositories, event bus, integration-event store, logger) is
an input describing its behaviour for the run, awaited promises are
modelled by an explicit behaviour type (resolve / reject / never settle),
and each service method is a pure function from that environment to the
outcome delivered to the caller together with the observable effects
(bus publish calls, store writes, log entries).
-/

namespace Account

/-- Behaviour of a collaborator promise as observed by one await or one
attached then/catch pair: it resolves with a value, rejects with an error
message, or never settles. -/
inductive PromiseBeh (α : Type) where
  | resolves : α → PromiseBeh α
  | rejects : String → PromiseBeh α
  | hangs : PromiseBeh α
deriving DecidableEq, Repr

/-- Why a service method promise rejected: one of the domain exceptions
thrown in the method body, or a rejected awaited collaborator promise
propagated unchanged. -/
inductive RejectReason where
  | validation
  | conflict
  | institutionRequired
  | collaborator : String → RejectReason
deriving DecidableEq, Repr

/-- Outcome of a service method promise as seen by its caller. -/
inductive Outcome (α : Type) where
  | resolved : α → Outcome α
  | rejected : RejectReason → Outcome α
  | pending : Outcome α
deriving DecidableEq, Repr

/-- Severity levels of the custom logger. -/
inductive Severity where
  | info
  | warn
  | error
deriving DecidableEq, Repr

/-- One logger invocation. -/
structure LogEntry where
  sev : Severity
  msg : String
deriving DecidableEq, Repr

/-- Renders an optional string the way a JS template literal renders a
possibly-undefined value. -/
def optStr (o : Option String) : String := o.getD "undefined"

/-! ### Data model: integration events (src/application/integration-event) -/

/-- EventType enum of integration.event.ts: USERS = 'users',
INSTITUTIONS = 'institutions'. -/
inductive EventType where
  | users
  | institutions
deriving DecidableEq, Repr

/-- Wire string of an EventType value. -/
def EventType.toWire : EventType → String
  | .users => "users"
  | .institutions => "institutions"

/-- The abstract IntegrationEvent<T> base class of integration.event.ts:
readonly event_name, type and optional timestamp, all set by the
(protected) constructor. -/
structure IntegrationEvent where
  event_name : String
  type : EventType
  timestamp : Option Nat
deriving DecidableEq, Repr

/-- Shape of IntegrationEvent.toJSON(): the three base fields. -/
structure IntegrationEventJSON where
  event_name : String
  timestamp : Option Nat
  type : EventType
deriving DecidableEq, Repr

/-- IntegrationEvent.toJSON() of integration.event.ts. -/
def IntegrationEvent.toJSON (e : IntegrationEvent) : IntegrationEventJSON :=
  { event_name := e.event_name, timestamp := e.timestamp, type := e.type }

/-- Modelled from the spec: the UserUpdateEvent<T> subclass is not among the
provided sources, only its construction site
new UserUpdateEvent<HealthProfessional>(event_name, new Date(), user) in
HealthProfessionalService.update. Per the spec's wire shape (section 6) its
serialized form carries the base fields event_name, timestamp and
type = users plus the serialized entity under a resource key. -/
structure UserUpdateEvent (T : Type) where
  event_name : String
  timestamp : Nat
  user : T
deriving DecidableEq, Repr

/-- The IntegrationEvent base-class part of a UserUpdateEvent: user events
carry EventType.USERS and the construction-time timestamp. -/
def UserUpdateEvent.base {T : Type} (e : UserUpdateEvent T) : IntegrationEvent :=
  { event_name := e.event_name, type := .users, timestamp := some e.timestamp }

/-- Serialized form of a user event: the base toJSON fields plus the entity. -/
structure UserEventJSON (T : Type) where
  event_name : String
  timestamp : Nat
  type : EventType
  user : T
deriving DecidableEq, Repr

/-- Modelled from the spec: UserUpdateEvent.toJSON() spreads the base
IntegrationEvent.toJSON() fields and adds the serialized entity
(spec section 6 wire shape). -/
def UserUpdateEvent.toJSON {T : Type} (e : UserUpdateEvent T) : UserEventJSON T :=
  { event_name := e.base.toJSON.event_name, timestamp := e.timestamp,
    type := e.base.toJSON.type, user := e.user }

/-- The record handed to the integration-event store by saveEvent:
saveEvent = event.toJSON() with the two operational fields
__operation and __routing_key attached. -/
structure SavedEventRecord (T : Type) where
  event_name : String
  timestamp : Nat
  type : EventType
  user : T
  __operation : String
  __routing_key : String
deriving DecidableEq, Repr

/-! ### Entities (minimal projections of the domain models) -/

/-- Minimal projection of the HealthProfessional domain model: only the
fields the embedded flows observe. -/
structure HealthProfessional where
  id : Option String
  username : Option String
deriving DecidableEq, Repr

/-- Minimal projection of the Educator domain model. -/
structure Educator where
  id : Option String
  username : Option String
deriving DecidableEq, Repr

/-- Rendering of a HealthProfessional used inside JSON.stringify output. -/
def HealthProfessional.jsonStr (hp : HealthProfessional) : String :=
  "id: " ++ optStr hp.id ++ ", username: " ++ optStr hp.username

/-- Rendering of the persisted record as in
JSON.stringify(saveEvent) of HealthProfessionalService.saveEvent. -/
def SavedEventRecord.stringify (r : SavedEventRecord HealthProfessional) : String :=
  "event_name: " ++ r.event_name ++ ", timestamp: " ++ toString r.timestamp ++
  ", type: " ++ r.type.toWire ++ ", healthprofessional: " ++ r.user.jsonStr ++
  ", __operation: " ++ r.__operation ++ ", __routing_key: " ++ r.__routing_key

/-! ### HealthProfessionalService.update (src/unnamed/part_002, lines 87-133)
and its saveEvent helper (lines 294-308). -/

/-- Collaborator behaviour for one run of HealthProfessionalService.update:
UpdateUserValidator.validate (throws or not), the duplicate checkExist
result, the institution existence check, repository.update,
eventBus.publish (awaited) and integrationEventRepository.create (not
awaited, consumed by the then/catch pair of saveEvent). now is the value
of new Date() at event construction. -/
structure HPUpdateEnv where
  validateOk : Bool
  duplicateExists : Bool
  hasInstitution : Bool
  institutionExists : Bool
  repoUpdate : PromiseBeh (Option HealthProfessional)
  busPublish : PromiseBeh Bool
  storeCreate : PromiseBeh Unit
  now : Nat
deriving DecidableEq, Repr

/-- Observable effects of one run of HealthProfessionalService.update. -/
structure HPEffects where
  busCalls : List (UserEventJSON HealthProfessional × String) := []
  storeCreates : List (SavedEventRecord HealthProfessional) := []
  logs : List LogEntry := []
deriving DecidableEq, Repr

/-- The event built at step 5 of HealthProfessionalService.update:
new UserUpdateEvent('HealthProfessionalUpdateEvent', new Date(), hp). -/
def hpUpdateEventOf (hp : HealthProfessional) (now : Nat) :
    UserUpdateEvent HealthProfessional :=
  { event_name := "HealthProfessionalUpdateEvent", timestamp := now, user := hp }

/-- The record saveEvent builds: event.toJSON() plus
__operation = 'publish' and __routing_key = 'healthprofessionals.update'. -/
def hpSaveEventRecord (e : UserUpdateEvent HealthProfessional) :
    SavedEventRecord HealthProfessional :=
  { event_name := e.toJSON.event_name, timestamp := e.toJSON.timestamp,
    type := e.toJSON.type, user := e.toJSON.user,
    __operation := "publish", __routing_key := "healthprofessionals.update" }

/-- The then/catch pair saveEvent attaches to the store create call:
a warning once the write resolves, an error entry carrying the message and
the full stringified record if it rejects, nothing if it never settles.
The create call is not awaited, so these log entries are the only
dependence of the run on the store outcome. -/
def hpSaveEventLogs (e : UserUpdateEvent HealthProfessional)
    (r : SavedEventRecord HealthProfessional)
    (storeCreate : PromiseBeh Unit) : List LogEntry :=
  match storeCreate with
  | .resolves _ =>
    [⟨.warn, "Could not publish the event named " ++ e.event_name ++
      ". The event was saved in the database for a possible recovery."⟩]
  | .rejects err =>
    [⟨.error, "There was an error trying to save the name event: " ++
      e.event_name ++ "." ++ "Error: " ++ err ++ ". Event: " ++ r.stringify⟩]
  | .hangs => []

/-- HealthProfessionalService.update. Steps 1-3 (validation, duplicate
check, institution check) sit in a try block whose catch rejects the
method promise; step 4 awaits repository.update outside any try, step 5
awaits eventBus.publish(event, 'healthprofessionals.update') and on a
false result invokes saveEvent (fire and forget); step 6 resolves with the
repository result, which may be undefined. -/
def HealthProfessionalService.update (env : HPUpdateEnv) :
    Outcome (Option HealthProfessional) × HPEffects :=
  if !env.validateOk then (.rejected .validation, {})
  else if env.duplicateExists then (.rejected .conflict, {})
  else if env.hasInstitution && !env.institutionExists then
    (.rejected .institutionRequired, {})
  else
    match env.repoUpdate with
    | .rejects e => (.rejected (.collaborator e), {})
    | .hangs => (.pending, {})
    | .resolves none => (.resolved none, {})
    | .resolves (some hp) =>
      let event := hpUpdateEventOf hp env.now
      let call := (event.toJSON, "healthprofessionals.update")
      match env.busPublish with
      | .hangs => (.pending, { busCalls := [call] })
      | .rejects e => (.rejected (.collaborator e), { busCalls := [call] })
      | .resolves true =>
        (.resolved (some hp),
          { busCalls := [call],
            logs := [⟨.info, "User of type Health Professional with ID: " ++
              optStr hp.id ++ " has been updated and published on event bus..."⟩] })
      | .resolves false =>
        let record := hpSaveEventRecord event
        (.resolved (some hp),
          { busCalls := [call], storeCreates := [record],
            logs := hpSaveEventLogs event record env.storeCreate })

/-! ### EducatorService.update (src/unnamed/part_001, lines 80-131). -/

/-- Collaborator behaviour for one run of EducatorService.update:
UpdateEducatorValidator.validate, the existence check of step 2, the
username-conflict check of step 3, the institution check of step 4,
repository.update of step 5, and bus.pubUpdateEducator of step 6, which is
not awaited (only a then/catch pair is attached). -/
structure EdUpdateEnv where
  validateOk : Bool
  educatorExists : Bool
  hasUsername : Bool
  usernameConflict : Bool
  hasInstitution : Bool
  institutionExists : Bool
  repoUpdate : PromiseBeh (Option Educator)
  busPub : PromiseBeh Unit
deriving DecidableEq, Repr

/-- Observable effects of one run of EducatorService.update. The service
has no integration-event store collaborator at all (see its constructor),
so storeCreates records the store create invocations it can make: none. -/
structure EdEffects where
  busCalls : List Educator := []
  storeCreates : List (SavedEventRecord Educator) := []
  logs : List LogEntry := []
deriving DecidableEq, Repr

/-- EducatorService.update. A missing educator resolves undefined (step 2);
steps 1-5 reject through the surrounding try/catch; step 6 attaches
then/catch to pubUpdateEducator without awaiting it, so the method
resolves with the repository result whatever the bus does, and the bus
outcome is visible only in the log. -/
def EducatorService.update (env : EdUpdateEnv) :
    Outcome (Option Educator) × EdEffects :=
  if !env.validateOk then (.rejected .validation, {})
  else if !env.educatorExists then (.resolved none, {})
  else if env.hasUsername && env.usernameConflict then (.rejected .conflict, {})
  else if env.hasInstitution && !env.institutionExists then
    (.rejected .institutionRequired, {})
  else
    match env.repoUpdate with
    | .rejects e => (.rejected (.collaborator e), {})
    | .hangs => (.pending, {})
    | .resolves none => (.resolved none, {})
    | .resolves (some ed) =>
      let logs : List LogEntry :=
        match env.busPub with
        | .resolves _ =>
          [⟨.info, "User of type Educator with ID: " ++ optStr ed.id ++
            " has been updated and published on event bus..."⟩]
        | .rejects err =>
          [⟨.error, "Error trying to publish event UpdateEducator. " ++ err⟩]
        | .hangs => []
      (.resolved (some ed), { busCalls := [ed], logs := logs })

/-! ### deleteChildrenGroup (src/unnamed/part_001 lines 259-289 and
src/unnamed/part_002 lines 256-286; the two bodies are line-for-line
analogous). -/

/-- Collaborator behaviour for one run of deleteChildrenGroup: the two
ObjectIdValidator.validate calls (throw or pass), repository.findById for
the owning user, childrenGroupService.remove, and the repository.update
that follows a successful removal. -/
structure DeleteCGEnv (U : Type) where
  userIdValid : Bool
  groupIdValid : Bool
  findById : PromiseBeh (Option U)
  removeGroup : PromiseBeh Bool
  userUpdate : PromiseBeh Unit
deriving Repr

/-- Observable effects of one run of deleteChildrenGroup: the group ids
passed to childrenGroupService.remove and the user entities passed to
repository.update. (The in-place removeChildrenGroup mutation on the
entity is not among the provided sources; the entity is recorded as it is
handed to repository.update.) -/
structure DeleteCGEffects (U : Type) where
  groupRemovals : List String := []
  userUpdates : List U := []
deriving Repr

/-- EducatorService.deleteChildrenGroup: validate both ids; a missing
educator resolves true with no further calls; otherwise remove the group
through childrenGroupService and, if removal succeeded, drop the
association and update the educator; resolve with the removal result. -/
def EducatorService.deleteChildrenGroup (env : DeleteCGEnv Educator)
    (childrenGroupId : String) : Outcome Bool × DeleteCGEffects Educator :=
  if !env.userIdValid || !env.groupIdValid then (.rejected .validation, {})
  else
    match env.findById with
    | .rejects e => (.rejected (.collaborator e), {})
    | .hangs => (.pending, {})
    | .resolves none => (.resolved true, {})
    | .resolves (some ed) =>
      match env.removeGroup with
      | .rejects e => (.rejected (.collaborator e), { groupRemovals := [childrenGroupId] })
      | .hangs => (.pending, { groupRemovals := [childrenGroupId] })
      | .resolves removeResult =>
        if removeResult then
          match env.userUpdate with
          | .rejects e =>
            (.rejected (.collaborator e),
              { groupRemovals := [childrenGroupId], userUpdates := [ed] })
          | .hangs =>
            (.pending, { groupRemovals := [childrenGroupId], userUpdates := [ed] })
          | .resolves _ =>
            (.resolved true, { groupRemovals := [childrenGroupId], userUpdates := [ed] })
        else (.resolved false, { groupRemovals := [childrenGroupId] })

/-- HealthProfessionalService.deleteChildrenGroup: same control flow as the
educator variant, against the health-professional repository. -/
def HealthProfessionalService.deleteChildrenGroup
    (env : DeleteCGEnv HealthProfessional) (childrenGroupId : String) :
    Outcome Bool × DeleteCGEffects HealthProfessional :=
  if !env.userIdValid || !env.groupIdValid then (.rejected .validation, {})
  else
    match env.findById with
    | .rejects e => (.rejected (.collaborator e), {})
    | .hangs => (.pending, {})
    | .resolves none => (.resolved true, {})
    | .resolves (some hp) =>
      match env.removeGroup with
      | .rejects e => (.rejected (.collaborator e), { groupRemovals := [childrenGroupId] })
      | .hangs => (.pending, { groupRemovals := [childrenGroupId] })
      | .resolves removeResult =>
        if removeResult then
          match env.userUpdate with
          | .rejects e =>
            (.rejected (.collaborator e),
              { groupRemovals := [childrenGroupId], userUpdates := [hp] })
          | .hangs =>
            (.pending, { groupRemovals := [childrenGroupId], userUpdates := [hp] })
          | .resolves _ =>
            (.resolved true, { groupRemovals := [childrenGroupId], userUpdates := [hp] })
        else (.resolved false, { groupRemovals := [childrenGroupId] })

/-! ### Event Bus Retry Task. -/

/-- Modelled from the spec: the stored form a persisted event is rehydrated
from by the retry task (spec sections 3 and 4.3) — the store record id, the
event name and the routing key the event must be republished to. The retry
task source file is not among the provided sources (only its caller
BackgroundService is). -/
structure StoredEvent where
  id : String
  event_name : String
  routing_key : String
deriving DecidableEq, Repr

/-- Accumulated observations of one retry-task run: every event for which
a republish was attempted, the ids passed to Store.deleteById, and the
warnings logged for per-item failures. -/
structure RetryState where
  attempts : List StoredEvent := []
  deletes : List String := []
  logs : List LogEntry := []
deriving DecidableEq, Repr

/-- Modelled from the spec: one item of the retry batch (spec section 4.3
steps 2-4). The republish may return a boolean or throw; on success the
record id is passed to Store.deleteById, on failure the record is left
untouched and a warning naming the event and the error is logged. -/
def retryPublishOne (bus : StoredEvent → Except String Bool)
    (st : RetryState) (e : StoredEvent) : RetryState :=
  match bus e with
  | .ok true =>
    { st with
      attempts := st.attempts ++ [e]
      deletes := st.deletes ++ [e.id] }
  | .ok false =>
    { st with
      attempts := st.attempts ++ [e]
      logs := st.logs ++ [⟨.warn, "Event " ++ e.event_name ++
        " could not be republished: broker rejected"⟩] }
  | .error err =>
    { st with
      attempts := st.attempts ++ [e]
      logs := st.logs ++ [⟨.warn, "Event " ++ e.event_name ++
        " could not be republished: " ++ err⟩] }

/-- Modelled from the spec: one run of the Event Bus Retry Task (spec
section 4.3): fetch all persisted events via Store.findAll and process each
one independently with retryPublishOne. -/
def eventBusRetryRun (store : List StoredEvent)
    (bus : StoredEvent → Except String Bool) : RetryState :=
  store.foldl (retryPublishOne bus) {}

/-- The store contents after a retry run: deleteById removes exactly the
records whose ids were collected in deletes. -/
def retryRemainingStore (store : List StoredEvent)
    (bus : StoredEvent → Except String Bool) : List StoredEvent :=
  store.filter (fun e => !(eventBusRetryRun store bus).deletes.elem e.id)

/-! ### Family children (src/src/application/domain/model/family.ts). -/

/-- Minimal projection of the Child domain model: the id field, which is
what removesRepeatedChildren compares. -/
structure Child where
  id : Option String
  username : Option String
deriving DecidableEq, Repr

/-- JS Array.prototype.indexOf over optional-string ids: the first position
holding the value (the length when absent; the absent case never feeds the
de-duplication filter, whose probe values all occur in the array). -/
def jsIndexOf (xs : List (Option String)) (a : Option String) : Nat :=
  match xs with
  | [] => 0
  | x :: rest => if x = a then 0 else jsIndexOf rest a + 1

/-- Family.removesRepeatedChildren: the JS Array.filter over
(obj, pos, arr) keeping obj exactly when
arr.map(group => group.id).indexOf(obj.id) === pos, i.e. when pos is the
first position carrying obj's id. -/
def removesRepeatedChildren (children : List Child) : List Child :=
  (children.enum.filter
    (fun p => jsIndexOf (children.map Child.id) p.2.id == p.1)).map Prod.snd

/-- Minimal projection of the Family domain model: the private _children
backing field. -/
structure Family where
  children : Option (List Child)
deriving DecidableEq, Repr

/-- The Family children setter: an array value is de-duplicated with
removesRepeatedChildren before being stored; undefined is stored as is. -/
def Family.childrenSet (f : Family) (value : Option (List Child)) : Family :=
  { f with children := value.map removesRepeatedChildren }

/-- Family.addChild: initialise _children through the setter when absent,
push the child in place on the array returned by the getter (bypassing the
setter), then reassign the de-duplicated array through the setter. -/
def Family.addChild (f : Family) (child : Child) : Family :=
  let f1 := if f.children.isNone then f.childrenSet (some []) else f
  let pushed := (f1.children.getD []) ++ [child]
  let f2 : Family := { f1 with children := some pushed }
  f2.childrenSet (some (removesRepeatedChildren pushed))

/-! ### Concrete fixtures used by witnesses and counterexamples. -/

/-- A concrete health professional. -/
def hpSample : HealthProfessional := { id := some "H1", username := some "hp01" }

/-- A concrete educator. -/
def edSample : Educator := { id := some "E1", username := some "edu01" }

/-- A run of HealthProfessionalService.update in which validation passes,
no duplicate or institution check fires, the repository update succeeds
with hpSample and the bus accepts the event. -/
def hpEnvBase : HPUpdateEnv :=
  { validateOk := true, duplicateExists := false, hasInstitution := false,
    institutionExists := false, repoUpdate := .resolves (some hpSample),
    busPublish := .resolves true, storeCreate := .resolves (), now := 1620000000 }

/-- A run of EducatorService.update in which all checks pass, the
repository update succeeds with edSample and the publish resolves. -/
def edEnvBase : EdUpdateEnv :=
  { validateOk := true, educatorExists := true, hasUsername := true,
    usernameConflict := false, hasInstitution := false, institutionExists := false,
    repoUpdate := .resolves (some edSample), busPub := .resolves () }

/-! ### Shared lemmas about the embedded services. -/

/-- EducatorService has no integration-event store collaborator, so no run
of its update writes a record. -/
theorem EducatorService.update_storeCreates_nil (env : EdUpdateEnv) :
    (EducatorService.update env).2.storeCreates = [] := by
  unfold EducatorService.update
  split_ifs <;>
    first
    | rfl
    | · rcases henv : env.repoUpdate with (_ | ed) | e | _ <;>
        rcases henv2 : env.busPub with _ | e2 | _ <;> simp [henv, henv2]

/-! ### Claims -/

/-- C1 counterexample: in EducatorService.update the mutation succeeds,
the bus publish fails by throwing, and yet the integration-event store's
create is never called (the educator service only logs the error), so the
claim that every event-producing mutation persists failed events is false
on the code. -/
theorem C1_counterexample :
    (EducatorService.update { edEnvBase with busPub := .rejects "bus unreachable" }).1
        = .resolved (some edSample) ∧
      (EducatorService.update
          { edEnvBase with busPub := .rejects "bus unreachable" }).2.storeCreates = [] :=
  ⟨rfl, rfl⟩

/-- C1 amended: only HealthProfessionalService.update persists failed
events, and only when bus.publish resolves false: the serialized event
with field values __operation = "publish" and
__routing_key = "healthprofessionals.update" attached is then passed to the
integration-event store's create; EducatorService.update never writes to
the store, whatever its run does. -/
theorem C1_amended (envH : HPUpdateEnv) (hp : HealthProfessional)
    (h1 : envH.validateOk = true) (h2 : envH.duplicateExists = false)
    (h3 : (envH.hasInstitution && !envH.institutionExists) = false)
    (h4 : envH.repoUpdate = .resolves (some hp))
    (h5 : envH.busPublish = .resolves false) :
    (HealthProfessionalService.update envH).2.storeCreates =
        [hpSaveEventRecord (hpUpdateEventOf hp envH.now)] ∧
      (hpSaveEventRecord (hpUpdateEventOf hp envH.now)).__operation = "publish" ∧
      (hpSaveEventRecord (hpUpdateEventOf hp envH.now)).__routing_key =
        "healthprofessionals.update" ∧
      ∀ envE : EdUpdateEnv, (EducatorService.update envE).2.storeCreates = [] := by
  refine ⟨?_, rfl, rfl, fun envE => EducatorService.update_storeCreates_nil envE⟩
  simp [HealthProfessionalService.update, h1, h2, h3, h4, h5]

/-- C1 witness: the amended statement at a concrete run of
HealthProfessionalService.update whose bus publish resolves false. -/
theorem C1_witness :
    (HealthProfessionalService.update
        { hpEnvBase with busPublish := .resolves false }).2.storeCreates =
        [hpSaveEventRecord (hpUpdateEventOf hpSample
          ({ hpEnvBase with busPublish := PromiseBeh.resolves false } : HPUpdateEnv).now)] ∧
      (hpSaveEventRecord (hpUpdateEventOf hpSample
        ({ hpEnvBase with busPublish := PromiseBeh.resolves false } : HPUpdateEnv).now)).__operation
        = "publish" ∧
      (hpSaveEventRecord (hpUpdateEventOf hpSample
        ({ hpEnvBase with busPublish := PromiseBeh.resolves false } : HPUpdateEnv).now)).__routing_key
        = "healthprofessionals.update" ∧
      ∀ envE : EdUpdateEnv, (EducatorService.update envE).2.storeCreates = [] :=
  C1_amended { hpEnvBase with busPublish := .resolves false } hpSample rfl rfl rfl rfl rfl

/-- C2 counterexample: a run of HealthProfessionalService.update whose
repository update succeeds but whose bus publish never settles leaves the
caller pending, while the identical run with a resolving bus returns the
entity — so the returned entity is not produced independently of the
publish outcome. -/
theorem C2_counterexample :
    (HealthProfessionalService.update { hpEnvBase with busPublish := .hangs }).1
        = .pending ∧
      (HealthProfessionalService.update hpEnvBase).1 = .resolved (some hpSample) :=
  ⟨rfl, rfl⟩

/-- C2 amended: EducatorService.update delivers the same outcome to its
caller whatever the bus publish does (true, false, throw, or never
resolving), while HealthProfessionalService.update awaits the publish and
so only delivers the same outcome for the publish results true and false;
a never-resolving bus leaves it pending. -/
theorem C2_amended :
    (∀ (env : EdUpdateEnv) (b1 b2 : PromiseBeh Unit),
        (EducatorService.update { env with busPub := b1 }).1 =
          (EducatorService.update { env with busPub := b2 }).1) ∧
      ∀ env : HPUpdateEnv,
        (HealthProfessionalService.update { env with busPublish := .resolves true }).1 =
          (HealthProfessionalService.update { env with busPublish := .resolves false }).1 := by
  constructor
  · intro env b1 b2
    rcases env with ⟨v, ex, hu, uc, hi, ie, ru, _⟩
    cases v <;> cases ex <;> cases hu <;> cases uc <;> cases hi <;> cases ie <;>
      rcases ru with (_ | ed) | e | _ <;>
        rcases b1 with _ | e1 | _ <;> rcases b2 with _ | e2 | _ <;> rfl
  · intro env
    rcases env with ⟨v, de, hi, ie, ru, _, sc, now⟩
    cases v <;> cases de <;> cases hi <;> cases ie <;>
      rcases ru with (_ | hp) | e | _ <;> rfl

/-- C3 counterexample: a thrown bus.publish in
HealthProfessionalService.update is not recovered: the mutation's promise
rejects with the bus error, and no fallback persistence happens. -/
theorem C3_counterexample :
    (HealthProfessionalService.update
        { hpEnvBase with busPublish := .rejects "ECONNREFUSED" }).1
        = .rejected (.collaborator "ECONNREFUSED") ∧
      (HealthProfessionalService.update
        { hpEnvBase with busPublish := .rejects "ECONNREFUSED" }).2.storeCreates = [] :=
  ⟨rfl, rfl⟩

/-- C3 amended: in EducatorService.update a thrown bus publish is recovered
locally — the error is logged and the mutation still resolves with the
updated entity — but no fallback persistence occurs; in
HealthProfessionalService.update a thrown bus.publish propagates to the
caller as a rejection, and its fallback persistence runs only when publish
resolves false. -/
theorem C3_amended (envE : EdUpdateEnv) (ed : Educator) (err : String)
    (e1 : envE.validateOk = true) (e2 : envE.educatorExists = true)
    (e3 : (envE.hasUsername && envE.usernameConflict) = false)
    (e4 : (envE.hasInstitution && !envE.institutionExists) = false)
    (e5 : envE.repoUpdate = .resolves (some ed))
    (e6 : envE.busPub = .rejects err)
    (envH : HPUpdateEnv) (hp : HealthProfessional) (berr : String)
    (h1 : envH.validateOk = true) (h2 : envH.duplicateExists = false)
    (h3 : (envH.hasInstitution && !envH.institutionExists) = false)
    (h4 : envH.repoUpdate = .resolves (some hp))
    (h5 : envH.busPublish = .rejects berr) :
    (EducatorService.update envE).1 = .resolved (some ed) ∧
      (EducatorService.update envE).2.logs =
        [⟨.error, "Error trying to publish event UpdateEducator. " ++ err⟩] ∧
      (EducatorService.update envE).2.storeCreates = [] ∧
      (HealthProfessionalService.update envH).1 = .rejected (.collaborator berr) ∧
      (HealthProfessionalService.update envH).2.storeCreates = [] := by
  refine ⟨?_, ?_, EducatorService.update_storeCreates_nil envE, ?_, ?_⟩ <;>
    simp [EducatorService.update, HealthProfessionalService.update,
      e1, e2, e3, e4, e5, e6, h1, h2, h3, h4, h5]

/-- C3 witness: the amended statement at a concrete educator run and a
concrete health-professional run, both with a throwing bus. -/
theorem C3_witness :
    (EducatorService.update { edEnvBase with busPub := .rejects "broker down" }).1
        = .resolved (some edSample) ∧
      (EducatorService.update { edEnvBase with busPub := .rejects "broker down" }).2.logs =
        [⟨.error, "Error trying to publish event UpdateEducator. " ++ "broker down"⟩] ∧
      (EducatorService.update
        { edEnvBase with busPub := .rejects "broker down" }).2.storeCreates = [] ∧
      (HealthProfessionalService.update
          { hpEnvBase with busPublish := .rejects "ETIMEDOUT" }).1
        = .rejected (.collaborator "ETIMEDOUT") ∧
      (HealthProfessionalService.update
        { hpEnvBase with busPublish := .rejects "ETIMEDOUT" }).2.storeCreates = [] :=
  C3_amended { edEnvBase with busPub := .rejects "broker down" } edSample "broker down"
    rfl rfl rfl rfl rfl rfl
    { hpEnvBase with busPublish := .rejects "ETIMEDOUT" } hpSample "ETIMEDOUT"
    rfl rfl rfl rfl rfl

/-- C4: when the repository update resolves with no entity (entity not
found, no row changed), neither service attempts event publication: the
bus is not called and nothing is written to the integration-event store. -/
theorem C4_no_event_without_row (envH : HPUpdateEnv) (envE : EdUpdateEnv)
    (h : envH.repoUpdate = .resolves none) (e : envE.repoUpdate = .resolves none) :
    (HealthProfessionalService.update envH).2.busCalls = [] ∧
      (HealthProfessionalService.update envH).2.storeCreates = [] ∧
      (EducatorService.update envE).2.busCalls = [] ∧
      (EducatorService.update envE).2.storeCreates = [] := by
  refine ⟨?_, ?_, ?_, ?_⟩ <;>
    · first
      | unfold HealthProfessionalService.update
      | unfold EducatorService.update
      split_ifs <;> simp [h, e]

/-- C4 witness: concrete runs of both services whose repository update
returns no entity. -/
theorem C4_witness :
    (HealthProfessionalService.update { hpEnvBase with repoUpdate := .resolves none }).2.busCalls
        = [] ∧
      (HealthProfessionalService.update
        { hpEnvBase with repoUpdate := .resolves none }).2.storeCreates = [] ∧
      (EducatorService.update { edEnvBase with repoUpdate := .resolves none }).2.busCalls = [] ∧
      (EducatorService.update { edEnvBase with repoUpdate := .resolves none }).2.storeCreates
        = [] :=
  C4_no_event_without_row { hpEnvBase with repoUpdate := .resolves none }
    { edEnvBase with repoUpdate := .resolves none } rfl rfl

/-- C5: an update of a HealthProfessional that succeeds while bus.publish
resolves false writes exactly one record to the integration-event store,
and that record carries event_name = "HealthProfessionalUpdateEvent",
__operation = "publish" and __routing_key = "healthprofessionals.update". -/
theorem C5_single_persisted_record (envH : HPUpdateEnv) (hp : HealthProfessional)
    (h1 : envH.validateOk = true) (h2 : envH.duplicateExists = false)
    (h3 : (envH.hasInstitution && !envH.institutionExists) = false)
    (h4 : envH.repoUpdate = .resolves (some hp))
    (h5 : envH.busPublish = .resolves false) :
    (HealthProfessionalService.update envH).2.storeCreates =
      [{ event_name := "HealthProfessionalUpdateEvent", timestamp := envH.now,
         type := .users, user := hp, __operation := "publish",
         __routing_key := "healthprofessionals.update" }] := by
  simp [HealthProfessionalService.update, h1, h2, h3, h4, h5, hpSaveEventRecord,
    hpUpdateEventOf, UserUpdateEvent.toJSON, UserUpdateEvent.base, IntegrationEvent.toJSON]

/-- C5 witness: the update of hpSample (id H1) with a bus stub returning
false persists exactly that one record. -/
theorem C5_witness :
    (HealthProfessionalService.update
        { hpEnvBase with busPublish := .resolves false }).2.storeCreates =
      [{ event_name := "HealthProfessionalUpdateEvent",
         timestamp := ({ hpEnvBase with busPublish := PromiseBeh.resolves false } : HPUpdateEnv).now,
         type := .users, user := hpSample, __operation := "publish",
         __routing_key := "healthprofessionals.update" }] :=
  C5_single_persisted_record { hpEnvBase with busPublish := .resolves false } hpSample
    rfl rfl rfl rfl rfl

/-- C6: when the integration-event store's create rejects while persisting
a failed event, the only trace is a single error-severity log entry whose
message carries the full stringified event record; nothing propagates and
the mutation's outcome is the same as when the store write succeeds. -/
theorem C6_store_reject_only_logged (envH : HPUpdateEnv) (hp : HealthProfessional)
    (err : String)
    (h1 : envH.validateOk = true) (h2 : envH.duplicateExists = false)
    (h3 : (envH.hasInstitution && !envH.institutionExists) = false)
    (h4 : envH.repoUpdate = .resolves (some hp))
    (h5 : envH.busPublish = .resolves false)
    (h6 : envH.storeCreate = .rejects err) :
    (HealthProfessionalService.update envH).1 = .resolved (some hp) ∧
      (HealthProfessionalService.update envH).1 =
        (HealthProfessionalService.update { envH with storeCreate := .resolves () }).1 ∧
      (HealthProfessionalService.update envH).2.logs =
        [⟨.error, "There was an error trying to save the name event: " ++
          "HealthProfessionalUpdateEvent" ++ "." ++ "Error: " ++ err ++ ". Event: " ++
          (hpSaveEventRecord (hpUpdateEventOf hp envH.now)).stringify⟩] := by
  refine ⟨?_, ?_, ?_⟩ <;>
    simp [HealthProfessionalService.update, h1, h2, h3, h4, h5, h6, hpSaveEventLogs,
      hpUpdateEventOf]

/-- C6 witness: a concrete run with the bus returning false and the store
create rejecting. -/
theorem C6_witness :
    (HealthProfessionalService.update
        { hpEnvBase with busPublish := .resolves false, storeCreate := .rejects "store down" }).1
        = .resolved (some hpSample) ∧
      (HealthProfessionalService.update
          { hpEnvBase with busPublish := .resolves false, storeCreate := .rejects "store down" }).1 =
        (HealthProfessionalService.update
          { { hpEnvBase with busPublish := .resolves false, storeCreate := .rejects "store down" }
            with storeCreate := .resolves () }).1 ∧
      (HealthProfessionalService.update
          { hpEnvBase with busPublish := .resolves false, storeCreate := .rejects "store down" }).2.logs =
        [⟨.error, "There was an error trying to save the name event: " ++
          "HealthProfessionalUpdateEvent" ++ "." ++ "Error: " ++ "store down" ++ ". Event: " ++
          (hpSaveEventRecord (hpUpdateEventOf hpSample
            ({ hpEnvBase with busPublish := PromiseBeh.resolves false, storeCreate := PromiseBeh.rejects "store down" } : HPUpdateEnv).now)).stringify⟩] :=
  C6_store_reject_only_logged
    { hpEnvBase with busPublish := .resolves false, storeCreate := .rejects "store down" }
    hpSample "store down" rfl rfl rfl rfl rfl rfl

/-! ### Retry-task lemmas and C7. -/

deriving instance DecidableEq for Except

/-- Whether the retry republish of a stored event succeeded: the bus call
returned true without throwing. -/
def retrySucceeded (bus : StoredEvent → Except String Bool) (e : StoredEvent) : Bool :=
  match bus e with
  | .ok true => true
  | .ok false => false
  | .error _ => false

/-- retrySucceeded characterised. -/
theorem retrySucceeded_iff (bus : StoredEvent → Except String Bool) (e : StoredEvent) :
    retrySucceeded bus e = true ↔ bus e = .ok true := by
  unfold retrySucceeded
  rcases hb : bus e with err | b
  · simp
  · cases b <;> simp

/-- Every event of the batch is attempted, whatever the accumulated state:
the attempts of a retry fold are the initial attempts followed by the whole
batch. -/
theorem retry_foldl_attempts (bus : StoredEvent → Except String Bool)
    (store : List StoredEvent) :
    ∀ st : RetryState,
      (store.foldl (retryPublishOne bus) st).attempts = st.attempts ++ store := by
  induction store with
  | nil => intro st; simp
  | cons e rest ih =>
    intro st
    rw [List.foldl_cons, ih]
    rcases hb : bus e with err | b
    · simp [retryPublishOne, hb]
    · cases b <;> simp [retryPublishOne, hb]

/-- The ids passed to Store.deleteById by a retry fold are the initial ones
followed by the ids of exactly the events whose republish succeeded. -/
theorem retry_foldl_deletes (bus : StoredEvent → Except String Bool)
    (store : List StoredEvent) :
    ∀ st : RetryState,
      (store.foldl (retryPublishOne bus) st).deletes =
        st.deletes ++ (store.filter (retrySucceeded bus)).map StoredEvent.id := by
  induction store with
  | nil => intro st; simp
  | cons e rest ih =>
    intro st
    rw [List.foldl_cons, ih, List.filter_cons]
    rcases hb : bus e with err | b
    · simp [retryPublishOne, retrySucceeded, hb]
    · cases b <;> simp [retryPublishOne, retrySucceeded, hb]

/-- C7: in one run of the event-bus retry task every persisted event is
attempted (a failure on one event does not prevent the remaining events of
the batch from being attempted), a record's id is passed to deleteById
exactly when its republish succeeded, and the store afterwards retains
precisely the records whose republish did not succeed. Requires the store
records to carry pairwise distinct ids. -/
theorem C7_retry_batch (store : List StoredEvent) (bus : StoredEvent → Except String Bool)
    (hnodup : (store.map StoredEvent.id).Nodup) :
    (eventBusRetryRun store bus).attempts = store ∧
      (∀ e ∈ store, (e.id ∈ (eventBusRetryRun store bus).deletes ↔ bus e = .ok true)) ∧
      (∀ e ∈ store, bus e ≠ .ok true → e ∈ retryRemainingStore store bus) ∧
      ∀ e ∈ store, bus e = .ok true → e ∉ retryRemainingStore store bus := by
  have ha := retry_foldl_attempts bus store {}
  have hd := retry_foldl_deletes bus store {}
  have hdel : (eventBusRetryRun store bus).deletes =
      (store.filter (retrySucceeded bus)).map StoredEvent.id := by
    simpa [eventBusRetryRun] using hd
  have hmem : ∀ e ∈ store,
      (e.id ∈ (eventBusRetryRun store bus).deletes ↔ bus e = .ok true) := by
    intro e he
    rw [hdel]
    constructor
    · intro hin
      rcases List.mem_map.mp hin with ⟨e2, he2, hid⟩
      have he2s : e2 ∈ store := (List.mem_filter.mp he2).1
      have hsucc : retrySucceeded bus e2 = true := (List.mem_filter.mp he2).2
      have heq : e2 = e := List.inj_on_of_nodup_map hnodup he2s he hid
      rw [heq] at hsucc
      exact (retrySucceeded_iff bus e).mp hsucc
    · intro hok
      exact List.mem_map_of_mem StoredEvent.id
        (List.mem_filter.mpr ⟨he, (retrySucceeded_iff bus e).mpr hok⟩)
  refine ⟨by simpa [eventBusRetryRun] using ha, hmem, ?_, ?_⟩
  · intro e he hfail
    have hnot : e.id ∉ (eventBusRetryRun store bus).deletes := by
      intro hin
      exact hfail ((hmem e he).mp hin)
    unfold retryRemainingStore
    refine List.mem_filter.mpr ⟨he, ?_⟩
    simpa using hnot
  · intro e he hok hinrem
    have hin : e.id ∈ (eventBusRetryRun store bus).deletes := (hmem e he).mpr hok
    unfold retryRemainingStore at hinrem
    have hfil := (List.mem_filter.mp hinrem).2
    rw [Bool.not_eq_true'] at hfil
    exact absurd hin (by simpa using hfil)

/-- The concrete three-event batch of the spec's batch-isolation scenario. -/
def storedEv1 : StoredEvent :=
  { id := "1", event_name := "EducatorUpdateEvent", routing_key := "educators.update" }

/-- Second stored event; its republish will throw. -/
def storedEv2 : StoredEvent :=
  { id := "2", event_name := "HealthProfessionalUpdateEvent",
    routing_key := "healthprofessionals.update" }

/-- Third stored event. -/
def storedEv3 : StoredEvent :=
  { id := "3", event_name := "UserDeleteEvent", routing_key := "users.delete" }

/-- The three-event store. -/
def retryStore3 : List StoredEvent := [storedEv1, storedEv2, storedEv3]

/-- A bus that throws on the second event and accepts the others. -/
def retryBus3 (e : StoredEvent) : Except String Bool :=
  if e.id = "2" then .error "connection refused" else .ok true

/-- C7 witness: on the three-event batch where the second republish throws,
all three events are attempted, the first is deleted, the second is
retained for the next tick. -/
theorem C7_witness :
    (eventBusRetryRun retryStore3 retryBus3).attempts = retryStore3 ∧
      (storedEv1.id ∈ (eventBusRetryRun retryStore3 retryBus3).deletes ↔
        retryBus3 storedEv1 = .ok true) ∧
      storedEv2 ∈ retryRemainingStore retryStore3 retryBus3 ∧
      storedEv1 ∉ retryRemainingStore retryStore3 retryBus3 :=
  ⟨(C7_retry_batch retryStore3 retryBus3 (by decide)).1,
    (C7_retry_batch retryStore3 retryBus3 (by decide)).2.1 storedEv1 (by decide),
    (C7_retry_batch retryStore3 retryBus3 (by decide)).2.2.1 storedEv2 (by decide) (by decide),
    (C7_retry_batch retryStore3 retryBus3 (by decide)).2.2.2 storedEv1 (by decide) (by decide)⟩

/-- C8: every integration event is immutable once constructed. In the
embedding events are values whose readonly fields are fixed by the
constructor, so the claim is witnessed observationally: toJSON returns
exactly the construction-time event_name, type and timestamp, and every
record persisted or published by the update flow still carries the
construction-time event name, USERS type and creation timestamp (new
Date() at step 5), never a reassigned one. -/
theorem C8_event_immutable :
    (∀ (n : String) (ty : EventType) (ts : Option Nat),
        (IntegrationEvent.mk n ty ts).toJSON =
          { event_name := n, timestamp := ts, type := ty }) ∧
      (∀ env : HPUpdateEnv, ∀ r ∈ (HealthProfessionalService.update env).2.storeCreates,
        r.event_name = "HealthProfessionalUpdateEvent" ∧ r.type = .users ∧
          r.timestamp = env.now) ∧
      ∀ env : HPUpdateEnv, ∀ c ∈ (HealthProfessionalService.update env).2.busCalls,
        c.1.event_name = "HealthProfessionalUpdateEvent" ∧ c.1.timestamp = env.now := by
  refine ⟨fun n ty ts => rfl, ?_, ?_⟩
  · intro env r hr
    unfold HealthProfessionalService.update at hr
    split_ifs at hr <;> try simp at hr
    rcases hru : env.repoUpdate with (_ | hp) | e | _ <;> simp [hru] at hr
    rcases hbp : env.busPublish with (_ | _) | be | _ <;> simp [hbp] at hr
    subst hr
    exact ⟨rfl, rfl, rfl⟩
  · intro env c hc
    unfold HealthProfessionalService.update at hc
    split_ifs at hc <;> try simp at hc
    rcases hru : env.repoUpdate with (_ | hp) | e | _ <;> simp [hru] at hc
    rcases hbp : env.busPublish with (_ | _) | be | _ <;> simp [hbp] at hc <;>
      subst hc <;> exact ⟨rfl, rfl⟩

/-- C8 witness: the construction-time fields at concrete inputs, and the
record persisted by a concrete run with a bus returning false. -/
theorem C8_witness :
    ((IntegrationEvent.mk "UserDeleteEvent" EventType.users (some 7)).toJSON =
        { event_name := "UserDeleteEvent", timestamp := some 7, type := EventType.users }) ∧
      ((hpSaveEventRecord (hpUpdateEventOf hpSample 1620000000)).event_name =
          "HealthProfessionalUpdateEvent" ∧
        (hpSaveEventRecord (hpUpdateEventOf hpSample 1620000000)).type = EventType.users ∧
        (hpSaveEventRecord (hpUpdateEventOf hpSample 1620000000)).timestamp =
          ({ hpEnvBase with busPublish := PromiseBeh.resolves false } : HPUpdateEnv).now) :=
  ⟨C8_event_immutable.1 "UserDeleteEvent" EventType.users (some 7),
    C8_event_immutable.2.1 { hpEnvBase with busPublish := .resolves false }
      (hpSaveEventRecord (hpUpdateEventOf hpSample 1620000000)) (by decide)⟩

/-- A concrete deleteChildrenGroup run against a missing educator. -/
def dcgEnvE : DeleteCGEnv Educator :=
  { userIdValid := true, groupIdValid := true, findById := .resolves none,
    removeGroup := .resolves true, userUpdate := .resolves () }

/-- A concrete deleteChildrenGroup run against a missing health
professional. -/
def dcgEnvH : DeleteCGEnv HealthProfessional :=
  { userIdValid := true, groupIdValid := true, findById := .resolves none,
    removeGroup := .resolves true, userUpdate := .resolves () }

/-- C9: when both ids pass ObjectId validation and the repository's
findById resolves with no user, deleteChildrenGroup of both services
resolves true without invoking childrenGroupService.remove and without
updating any user record. -/
theorem C9_delete_group_unknown_user (envE : DeleteCGEnv Educator)
    (envH : DeleteCGEnv HealthProfessional) (gidE gidH : String)
    (e1 : envE.userIdValid = true) (e2 : envE.groupIdValid = true)
    (e3 : envE.findById = .resolves none)
    (h1 : envH.userIdValid = true) (h2 : envH.groupIdValid = true)
    (h3 : envH.findById = .resolves none) :
    (EducatorService.deleteChildrenGroup envE gidE).1 = .resolved true ∧
      (EducatorService.deleteChildrenGroup envE gidE).2.groupRemovals = [] ∧
      (EducatorService.deleteChildrenGroup envE gidE).2.userUpdates = [] ∧
      (HealthProfessionalService.deleteChildrenGroup envH gidH).1 = .resolved true ∧
      (HealthProfessionalService.deleteChildrenGroup envH gidH).2.groupRemovals = [] ∧
      (HealthProfessionalService.deleteChildrenGroup envH gidH).2.userUpdates = [] := by
  refine ⟨?_, ?_, ?_, ?_, ?_, ?_⟩ <;>
    simp [EducatorService.deleteChildrenGroup, HealthProfessionalService.deleteChildrenGroup,
      e1, e2, e3, h1, h2, h3]

/-- C9 witness: concrete runs of both deleteChildrenGroup variants whose
findById resolves with no user. -/
theorem C9_witness :
    (EducatorService.deleteChildrenGroup dcgEnvE "5b13826de00324086854584a").1
        = .resolved true ∧
      (EducatorService.deleteChildrenGroup dcgEnvE "5b13826de00324086854584a").2.groupRemovals
        = [] ∧
      (EducatorService.deleteChildrenGroup dcgEnvE "5b13826de00324086854584a").2.userUpdates
        = [] ∧
      (HealthProfessionalService.deleteChildrenGroup dcgEnvH "5b13826de00324086854584a").1
        = .resolved true ∧
      (HealthProfessionalService.deleteChildrenGroup dcgEnvH
        "5b13826de00324086854584a").2.groupRemovals = [] ∧
      (HealthProfessionalService.deleteChildrenGroup dcgEnvH
        "5b13826de00324086854584a").2.userUpdates = [] :=
  C9_delete_group_unknown_user dcgEnvE dcgEnvH "5b13826de00324086854584a"
    "5b13826de00324086854584a" rfl rfl rfl rfl rfl rfl

/-! ### Lemmas about the Family de-duplication and C10. -/

/-- jsIndexOf finds its probe: at the returned position the array holds the
probed value. -/
theorem jsIndexOf_get? (xs : List (Option String)) (a : Option String) (h : a ∈ xs) :
    xs.get? (jsIndexOf xs a) = some a := by
  induction xs with
  | nil => cases h
  | cons x rest ih =>
    by_cases hx : x = a
    · simp [jsIndexOf, hx]
    · have ha : a ∈ rest := by
        rcases List.mem_cons.mp h with h1 | h2
        · exact absurd h1.symm hx
        · exact h2
      simpa [jsIndexOf, hx] using ih ha

/-- The ids of the de-duplicated children are pairwise distinct: a kept
entry's position is the first position of its id, so two kept entries with
the same id occupy the same position of the enumerated list and are equal. -/
theorem removesRepeated_nodup (l : List Child) :
    ((removesRepeatedChildren l).map Child.id).Nodup := by
  unfold removesRepeatedChildren
  rw [List.map_map]
  have hsub : List.Sublist
      (l.enum.filter (fun p => jsIndexOf (l.map Child.id) p.2.id == p.1))
      l.enum := List.filter_sublist _
  have hfst : ((l.enum.filter
      (fun p => jsIndexOf (l.map Child.id) p.2.id == p.1)).map Prod.fst).Nodup :=
    List.Nodup.sublist (hsub.map Prod.fst) (List.nodup_enum_map_fst l)
  have hkeptnd := List.Nodup.of_map Prod.fst hfst
  refine List.Nodup.map_on ?_ hkeptnd
  intro x hx y hy hxy
  have hxb := List.of_mem_filter hx
  have hyb := List.of_mem_filter hy
  have hxp : jsIndexOf (l.map Child.id) x.2.id = x.1 := eq_of_beq hxb
  have hyp : jsIndexOf (l.map Child.id) y.2.id = y.1 := eq_of_beq hyb
  have hid : x.2.id = y.2.id := hxy
  have h1 : x.1 = y.1 := by rw [← hxp, ← hyp, hid]
  exact List.inj_on_of_nodup_map hfst hx hy h1

/-- De-duplication only removes entries: the result is a sublist of the
input. -/
theorem removesRepeated_sublist (l : List Child) :
    List.Sublist (removesRepeatedChildren l) l := by
  have h : List.Sublist
      ((l.enum.filter (fun p => jsIndexOf (l.map Child.id) p.2.id == p.1)).map Prod.snd)
      (l.enum.map Prod.snd) :=
    List.Sublist.map Prod.snd (List.filter_sublist l.enum)
  rw [List.enum_map_snd] at h
  exact h

/-- De-duplication keeps the first occurrence: the entry at the first
position of its id is in the result. -/
theorem removesRepeated_keeps_first (l : List Child) (p : Nat) (c : Child)
    (hp : l.get? p = some c)
    (hfirst : jsIndexOf (l.map Child.id) c.id = p) :
    c ∈ removesRepeatedChildren l := by
  unfold removesRepeatedChildren
  have hm : (p, c) ∈ l.enum := List.mem_enum_iff_get?.mpr hp
  have hf : (p, c) ∈ l.enum.filter
      (fun q => jsIndexOf (l.map Child.id) q.2.id == q.1) := by
    refine List.mem_filter.mpr ⟨hm, ?_⟩
    simp [hfirst]
  exact List.mem_map_of_mem Prod.snd hf

/-- No id is lost by de-duplication: every input child still has a child
with its id in the result (the one at the id's first occurrence). -/
theorem removesRepeated_id_mem (l : List Child) (c : Child) (hc : c ∈ l) :
    c.id ∈ (removesRepeatedChildren l).map Child.id := by
  have hmem : c.id ∈ l.map Child.id := List.mem_map_of_mem Child.id hc
  have hq := jsIndexOf_get? (l.map Child.id) c.id hmem
  rw [List.get?_map] at hq
  rcases ho : l.get? (jsIndexOf (l.map Child.id) c.id) with _ | d
  · rw [ho] at hq
    cases hq
  · rw [ho] at hq
    have hid : d.id = c.id := by
      simpa using hq
    have hfirst : jsIndexOf (l.map Child.id) d.id = jsIndexOf (l.map Child.id) c.id := by
      rw [hid]
    have hmem2 : d ∈ removesRepeatedChildren l :=
      removesRepeated_keeps_first l (jsIndexOf (l.map Child.id) c.id) d ho hfirst
    rw [← hid]
    exact List.mem_map_of_mem Child.id hmem2

/-- C10: a Family's children list never holds two entries with the same id.
Every array assigned through the children setter is stored de-duplicated,
de-duplication yields pairwise distinct ids while only removing entries —
keeping, for each id, exactly the entry at the id's first occurrence and
losing no id — and after every addChild the stored list's ids are again
pairwise distinct. -/
theorem C10_family_children_distinct :
    (∀ (f : Family) (l : List Child),
        (f.childrenSet (some l)).children = some (removesRepeatedChildren l)) ∧
      (∀ l : List Child, ((removesRepeatedChildren l).map Child.id).Nodup) ∧
      (∀ l : List Child, List.Sublist (removesRepeatedChildren l) l) ∧
      (∀ (l : List Child) (c : Child), c ∈ l →
        c.id ∈ (removesRepeatedChildren l).map Child.id) ∧
      (∀ (l : List Child) (p : Nat) (c : Child), l.get? p = some c →
        jsIndexOf (l.map Child.id) c.id = p → c ∈ removesRepeatedChildren l) ∧
      ∀ (f : Family) (c : Child), ∃ r, (f.addChild c).children = some r ∧
        (r.map Child.id).Nodup := by
  refine ⟨fun f l => rfl, removesRepeated_nodup, removesRepeated_sublist,
    removesRepeated_id_mem, ?_, ?_⟩
  · intro l p c hp hfirst
    exact removesRepeated_keeps_first l p c hp hfirst
  · intro f c
    exact ⟨_, rfl, removesRepeated_nodup _⟩

/-- A child with id C1. -/
def childA : Child := { id := some "C1", username := some "aa" }

/-- Another child with the duplicate id C1. -/
def childB : Child := { id := some "C1", username := some "bb" }

/-- A child with id C2. -/
def childC : Child := { id := some "C2", username := some "cc" }

/-- C10 witness: the claim's conjuncts at the concrete three-child list
whose first two entries share an id. -/
theorem C10_witness :
    (({ children := none } : Family).childrenSet (some [childA, childB, childC])).children
        = some (removesRepeatedChildren [childA, childB, childC]) ∧
      ((removesRepeatedChildren [childA, childB, childC]).map Child.id).Nodup ∧
      childB.id ∈ (removesRepeatedChildren [childA, childB, childC]).map Child.id ∧
      childA ∈ removesRepeatedChildren [childA, childB, childC] :=
  ⟨C10_family_children_distinct.1 { children := none } [childA, childB, childC],
    C10_family_children_distinct.2.1 [childA, childB, childC],
    C10_family_children_distinct.2.2.2.1 [childA, childB, childC] childB (by decide),
    C10_family_children_distinct.2.2.2.2.1 [childA, childB, childC] 0 childA (by decide)
      (by decide)⟩

end Account
